import Mathlib

/-!
Shallow embedding of the versioned-document edit/history engine of the
tantan_back repository: the relational state (projects, edit_history,
details, project_members), the version-writing operations of
`src/crud/projects.py` (`ProjectCRUD`), the SQLAlchemy-based helpers of
`src/db_operations.py`, and the `update_canvas` endpoint of `src/main.py`.

Rows are Lean structures; a table is a list of rows in insertion order
(SQL INSERT appends at the end); `SELECT MAX` and `ORDER BY ... DESC
LIMIT 1` become folds over those lists; server-side `now()` timestamps
become an explicit `now : Nat` argument; autoincrement ids are explicit
counters in the state.  A transaction that raises rolls the state back to
what it was when the transaction began; the Python `except Exception`
handlers that wrap each operation are modelled by returning the exact
success/message dictionaries the source returns.  Injected faults
(`TxFault`, and the Bool fault flags of the single-insert helpers) model
a storage exception raised at the corresponding point of the source.
-/

namespace Tantan

/-- The `UpdateCategory` enum of `src/db_operations.py` (provenance tags). -/
inductive UpdateCategory where
  | manual
  | consistency_check
  | research
  | interview
  | rollback
deriving DecidableEq, Repr

/-- The `Role` enum of `src/db_operations.py`. -/
inductive Role where
  | admin
  | editor
deriving DecidableEq, Repr

/-- One row of the `edit_history` table (class `EditHistory` in
`src/db_operations.py`): autoincrement primary key `edit_id`, foreign keys
`project_id` and `user_id`, `version`, server-defaulted `last_updated`,
NOT NULL `update_category`, nullable `update_comment`. -/
structure EditRow where
  edit_id : Nat
  project_id : Nat
  version : Nat
  last_updated : Nat
  user_id : Nat
  update_category : UpdateCategory
  update_comment : Option String
deriving DecidableEq, Repr

/-- One row of the eleven-column `details` table as written and read by the
raw SQL of `src/crud/projects.py` (columns after `edit_id` are the eleven
recognized canvas fields, each nullable). -/
structure DetailsRow where
  edit_id : Nat
  problem : Option String
  customer_segments : Option String
  unique_value_proposition : Option String
  solution : Option String
  channels : Option String
  revenue_streams : Option String
  cost_structure : Option String
  key_metrics : Option String
  unfair_advantage : Option String
  early_adopters : Option String
  existing_alternatives : Option String
deriving DecidableEq, Repr

/-- One row of the JSON-payload iteration of the details table (class
`Detail` in `src/db_operations.py`: `edit_id` plus a JSON `field` column),
used by `insert_canvas_details` and the `update_canvas` endpoint. -/
structure DetailJsonRow where
  edit_id : Nat
  field : List (String × String)
deriving DecidableEq, Repr

/-- One row of `project_members` (class `ProjectMember`): composite key
(`project_id`, `user_id`) plus a role. -/
structure MemberRow where
  project_id : Nat
  user_id : Nat
  role : Role
deriving DecidableEq, Repr

/-- One row of `projects` (class `Project`). -/
structure ProjectRow where
  project_id : Nat
  user_id : Nat
  project_name : String
deriving DecidableEq, Repr

/-- The relational state shared by all operations.  `details` is the
eleven-column iteration used by `ProjectCRUD`; `detailsJson` is the JSON
iteration used by the `db_operations.py` helpers.  `nextEditId` and
`nextProjectId` model the autoincrement sequences. -/
structure DB where
  projects : List ProjectRow
  edit_history : List EditRow
  details : List DetailsRow
  detailsJson : List DetailJsonRow
  members : List MemberRow
  nextEditId : Nat
  nextProjectId : Nat
deriving DecidableEq, Repr

/-- `canvas_data.get(key)` on the Python dict supplied by the caller,
modelled as lookup in an association list. -/
def cget (canvas_data : List (String × String)) (k : String) : Option String :=
  (canvas_data.find? (fun kv => kv.fst == k)).map (fun kv => kv.snd)

/-- The eleven recognized canvas field names, in the order of the `fields`
list of `ProjectCRUD.compare_canvas_versions` (the same order as the
INSERT column lists of `create_project` / `update_project`). -/
def canvasFields : List String :=
  ["problem", "customer_segments", "unique_value_proposition",
   "solution", "channels", "revenue_streams", "cost_structure",
   "key_metrics", "unfair_advantage", "early_adopters", "existing_alternatives"]

/-- The `details` row built by the INSERT of `create_project` /
`update_project`: each of the eleven columns receives
`canvas_data.get(name)`; any other key of `canvas_data` is never read. -/
def detailsRowOf (edit_id : Nat) (canvas_data : List (String × String)) : DetailsRow :=
  { edit_id := edit_id
    problem := cget canvas_data "problem"
    customer_segments := cget canvas_data "customer_segments"
    unique_value_proposition := cget canvas_data "unique_value_proposition"
    solution := cget canvas_data "solution"
    channels := cget canvas_data "channels"
    revenue_streams := cget canvas_data "revenue_streams"
    cost_structure := cget canvas_data "cost_structure"
    key_metrics := cget canvas_data "key_metrics"
    unfair_advantage := cget canvas_data "unfair_advantage"
    early_adopters := cget canvas_data "early_adopters"
    existing_alternatives := cget canvas_data "existing_alternatives" }

/-- Column of a `details` row selected by field name (the dynamic
`version[field]` access of the diff loop). -/
def fieldVal (d : DetailsRow) (f : String) : Option String :=
  if f = "problem" then d.problem
  else if f = "customer_segments" then d.customer_segments
  else if f = "unique_value_proposition" then d.unique_value_proposition
  else if f = "solution" then d.solution
  else if f = "channels" then d.channels
  else if f = "revenue_streams" then d.revenue_streams
  else if f = "cost_structure" then d.cost_structure
  else if f = "key_metrics" then d.key_metrics
  else if f = "unfair_advantage" then d.unfair_advantage
  else if f = "early_adopters" then d.early_adopters
  else if f = "existing_alternatives" then d.existing_alternatives
  else none

/-- `SELECT 1 FROM project_members WHERE project_id = $1 AND user_id = $2`,
the access check run by every project-scoped `ProjectCRUD` method. -/
def hasAccess (db : DB) (project_id user_id : Nat) : Bool :=
  db.members.any (fun m => m.project_id == project_id && m.user_id == user_id)

/-- All `edit_history` rows of one project, in insertion order
(`WHERE project_id = $1`). -/
def projectRows (db : DB) (project_id : Nat) : List EditRow :=
  db.edit_history.filter (fun r => r.project_id == project_id)

/-- The version numbers stored for one project, in insertion order. -/
def versionsOf (db : DB) (project_id : Nat) : List Nat :=
  (projectRows db project_id).map (fun r => r.version)

/-- `SELECT COALESCE(MAX(version), 0) FROM edit_history WHERE project_id = $1`. -/
def maxVersion (db : DB) (project_id : Nat) : Nat :=
  (versionsOf db project_id).foldr max 0

/-- `ORDER BY key DESC LIMIT 1` over a list in insertion order: the first
row carrying the maximal key (one of the behaviours SQL permits when the
key ties; deterministic here). -/
def argmaxBy (key : EditRow → Nat) : List EditRow → Option EditRow
  | [] => none
  | x :: xs =>
    match argmaxBy key xs with
    | none => some x
    | some b => if key x < key b then some b else some x

/-- An injected storage fault inside the transaction of a `ProjectCRUD`
write: `noFault` is the normal run; `betweenInserts` raises after the
`edit_history` INSERT and before the `details` INSERT, so the transaction
aborts and the method's except-handler runs. -/
inductive TxFault where
  | noFault
  | betweenInserts
deriving DecidableEq, Repr

/-- The dictionary every `ProjectCRUD` write returns: a `success` flag, the
new ids when present, and a human-readable `message`.  Failures of every
kind are reported through this same shape. -/
structure OpResult where
  success : Bool
  edit_id : Option Nat
  version : Option Nat
  message : String
deriving DecidableEq, Repr

/-- `ProjectCRUD.update_project` (src/crud/projects.py lines 185-256):
access check, then in one transaction read `COALESCE(MAX(version),0)`,
insert the `edit_history` row with version max+1 and the `details` row
with the eleven extracted fields.  A fault inside the transaction rolls
both inserts back and the except-handler returns the generic failure
dictionary. -/
def update_project (db : DB) (project_id user_id : Nat)
    (canvas_data : List (String × String)) (update_category : UpdateCategory)
    (update_comment : Option String) (now : Nat) (fault : TxFault) :
    OpResult × DB :=
  if hasAccess db project_id user_id = false then
    ({ success := false, edit_id := none, version := none,
       message := "このプロジェクトへのアクセス権限がありません" }, db)
  else
    match fault with
    | .betweenInserts =>
      ({ success := false, edit_id := none, version := none,
         message := "プロジェクト更新に失敗しました" }, db)
    | .noFault =>
      let new_version := maxVersion db project_id + 1
      let edit_id := db.nextEditId
      let editRow : EditRow :=
        { edit_id := edit_id, project_id := project_id, version := new_version,
          last_updated := now, user_id := user_id,
          update_category := update_category, update_comment := update_comment }
      ({ success := true, edit_id := some edit_id, version := some new_version,
         message := "プロジェクトが更新されました" },
       { db with
          edit_history := db.edit_history ++ [editRow]
          details := db.details ++ [detailsRowOf edit_id canvas_data]
          nextEditId := db.nextEditId + 1 })

/-- `ProjectCRUD.create_project` (lines 16-89): one transaction inserting
the project row, the version-1 `edit_history` row (category `manual`,
comment defaulted when falsy), the `details` row, and the creator's
`admin` membership.  Any fault rolls all four inserts back. -/
def create_project (db : DB) (user_id : Nat) (project_name : String)
    (canvas_data : List (String × String)) (update_comment : Option String)
    (now : Nat) (fault : TxFault) : OpResult × DB :=
  match fault with
  | .betweenInserts =>
    ({ success := false, edit_id := none, version := none,
       message := "プロジェクト作成に失敗しました" }, db)
  | .noFault =>
    let project_id := db.nextProjectId
    let edit_id := db.nextEditId
    let comment :=
      match update_comment with
      | some c => if c = "" then "初期作成" else c
      | none => "初期作成"
    let editRow : EditRow :=
      { edit_id := edit_id, project_id := project_id, version := 1,
        last_updated := now, user_id := user_id,
        update_category := .manual, update_comment := some comment }
    ({ success := true, edit_id := some edit_id, version := some 1,
       message := "プロジェクトが作成されました" },
     { db with
        projects := db.projects ++ [⟨project_id, user_id, project_name⟩]
        edit_history := db.edit_history ++ [editRow]
        details := db.details ++ [detailsRowOf edit_id canvas_data]
        members := db.members ++ [⟨project_id, user_id, .admin⟩]
        nextEditId := db.nextEditId + 1
        nextProjectId := db.nextProjectId + 1 })

/-- The target-row fetch of `rollback_to_version`: `details d JOIN
edit_history eh ON d.edit_id = eh.edit_id WHERE d.edit_id = $1 AND
eh.project_id = $2`, returning the eleven field values and the target's
version. -/
def fetchTargetDetails (db : DB) (edit_id project_id : Nat) :
    Option (DetailsRow × Nat) :=
  match db.details.find? (fun d => d.edit_id == edit_id) with
  | none => none
  | some d =>
    match db.edit_history.find?
        (fun r => r.edit_id == edit_id && r.project_id == project_id) with
    | none => none
    | some r => some (d, r.version)

/-- `ProjectCRUD.rollback_to_version` (lines 328-419): access check, fetch
of the target payload, then one transaction inserting an `edit_history`
row with version max+1, category `'rollback'` and a defaulted comment,
and a `details` row copying the target's eleven field values verbatim. -/
def rollback_to_version (db : DB) (project_id edit_id user_id : Nat)
    (rollback_comment : Option String) (now : Nat) (fault : TxFault) :
    OpResult × DB :=
  if hasAccess db project_id user_id = false then
    ({ success := false, edit_id := none, version := none,
       message := "このプロジェクトへのアクセス権限がありません" }, db)
  else
    match fetchTargetDetails db edit_id project_id with
    | none =>
      ({ success := false, edit_id := none, version := none,
         message := "ロールバック対象のバージョンが見つかりません" }, db)
    | some (target, target_version) =>
      match fault with
      | .betweenInserts =>
        ({ success := false, edit_id := none, version := none,
           message := "ロールバックに失敗しました" }, db)
      | .noFault =>
        let new_version := maxVersion db project_id + 1
        let new_edit_id := db.nextEditId
        let comment :=
          match rollback_comment with
          | some c =>
            if c = "" then "バージョン" ++ toString target_version ++ "にロールバック" else c
          | none => "バージョン" ++ toString target_version ++ "にロールバック"
        let editRow : EditRow :=
          { edit_id := new_edit_id, project_id := project_id,
            version := new_version, last_updated := now, user_id := user_id,
            update_category := .rollback, update_comment := some comment }
        ({ success := true, edit_id := some new_edit_id,
           version := some new_version,
           message := "バージョン" ++ toString target_version ++ "にロールバックしました" },
         { db with
            edit_history := db.edit_history ++ [editRow]
            details := db.details ++ [{ target with edit_id := new_edit_id }]
            nextEditId := db.nextEditId + 1 })

/-- The joined row returned by `ProjectCRUD.get_project_latest`: the
max-version `edit_history` row joined with its `details` payload
(`canvas_data = dict(details) if details else {}`, modelled as an Option). -/
structure LatestResult where
  project_id : Nat
  current_version : Nat
  update_category : UpdateCategory
  update_comment : Option String
  canvas : Option DetailsRow
deriving DecidableEq, Repr

/-- `ProjectCRUD.get_project_latest` (lines 121-183): access check, then
`edit_history JOIN projects ... ORDER BY version DESC LIMIT 1`, then the
`details` row of that edit id.  Returns `none` on missing access, missing
project or empty history (and on any exception). -/
def get_project_latest (db : DB) (project_id user_id : Nat) :
    Option LatestResult :=
  if hasAccess db project_id user_id = false then none
  else
    match db.projects.find? (fun p => p.project_id == project_id) with
    | none => none
    | some _ =>
      match argmaxBy (fun r => r.version) (projectRows db project_id) with
      | none => none
      | some eh =>
        some { project_id := project_id
               current_version := eh.version
               update_category := eh.update_category
               update_comment := eh.update_comment
               canvas := db.details.find? (fun d => d.edit_id == eh.edit_id) }

/-- `get_latest_version` in `src/db_operations.py` (lines 516-531):
`ORDER BY last_updated DESC LIMIT 1` over the project's rows — the sort
key is the timestamp, not the version number — returning that row's
`version`. -/
def get_latest_version (db : DB) (project_id : Nat) : Option Nat :=
  (argmaxBy (fun r => r.last_updated) (projectRows db project_id)).map
    (fun r => r.version)

/-- `get_latest_edit_id` in `src/db_operations.py` (lines 420-436): same
timestamp-ordered query, returning that row's `edit_id`. -/
def get_latest_edit_id (db : DB) (project_id : Nat) : Option Nat :=
  (argmaxBy (fun r => r.last_updated) (projectRows db project_id)).map
    (fun r => r.edit_id)

/-- `insert_edit_history` in `src/db_operations.py` (lines 473-497): a
single-statement transaction of its own.  `update_comment` is stored only
when truthy.  On an exception (`fault = true`) the function returns `0`
and the state is unchanged. -/
def insert_edit_history (db : DB) (project_id version user_id : Nat)
    (update_category : UpdateCategory) (update_comment : Option String)
    (now : Nat) (fault : Bool) : Nat × DB :=
  if fault then (0, db)
  else
    let comment : Option String :=
      match update_comment with
      | some c => if c = "" then none else some c
      | none => none
    let row : EditRow :=
      { edit_id := db.nextEditId, project_id := project_id, version := version,
        last_updated := now, user_id := user_id,
        update_category := update_category, update_comment := comment }
    (db.nextEditId,
     { db with edit_history := db.edit_history ++ [row],
               nextEditId := db.nextEditId + 1 })

/-- `insert_canvas_details` in `src/db_operations.py` (lines 499-514): a
single-statement transaction of its own, inserting a JSON-payload details
row.  Returns `false` (state unchanged) on an exception. -/
def insert_canvas_details (db : DB) (edit_id : Nat)
    (field : List (String × String)) (fault : Bool) : Bool × DB :=
  if fault then (false, db)
  else
    (true, { db with detailsJson := db.detailsJson ++ [⟨edit_id, field⟩] })

/-- An injected fault during the `update_canvas` endpoint: either of its
two separately-committed inserts may raise. -/
inductive CanvasFault where
  | noFault
  | editInsertFails
  | detailsInsertFails
deriving DecidableEq, Repr

/-- Outcome of the `update_canvas` endpoint: success body or an
HTTPException status. -/
inductive CanvasOutcome where
  | ok
  | httpError (status : Nat)
deriving DecidableEq, Repr

/-- The `POST /projects/{project_id}/latest` handler `update_canvas` in
`src/main.py` (lines 266-291): reads `get_latest_version` (0 when the
project has no rows), then calls `insert_edit_history` with version+1 and
`insert_canvas_details` — two separate transactions, each committing on
its own.  A failure of the first returns edit id 0 and a 500; a failure
of the second returns a 500 after the first has already committed. -/
def update_canvas (db : DB) (project_id user_id : Nat)
    (update_category : UpdateCategory) (update_comment : Option String)
    (field : List (String × String)) (now : Nat) (fault : CanvasFault) :
    CanvasOutcome × DB :=
  let version := (get_latest_version db project_id).getD 0
  let r1 := insert_edit_history db project_id (version + 1) user_id
      update_category update_comment now (fault == .editInsertFails)
  if r1.fst = 0 then (.httpError 500, r1.snd)
  else
    let r2 := insert_canvas_details r1.snd r1.fst field
        (fault == .detailsInsertFails)
    if r2.fst = false then (.httpError 500, r2.snd)
    else (.ok, r2.snd)

/-- One entry of the `differences` mapping built by
`compare_canvas_versions`: the two values and the changed flag. -/
structure FieldDiff where
  version1 : String
  version2 : String
  changed : Bool
deriving DecidableEq, Repr

/-- The diff loop of `compare_canvas_versions` (lines 452-467): for each
of the eleven recognized fields, read each side with NULL coerced to the
empty string and set `changed = (val1 != val2)` by exact string
comparison. -/
def computeDifferences (v1 v2 : DetailsRow) : List (String × FieldDiff) :=
  canvasFields.map (fun f =>
    let val1 := (fieldVal v1 f).getD ""
    let val2 := (fieldVal v2 f).getD ""
    (f, { version1 := val1, version2 := val2, changed := val1 != val2 }))

/-- Result of `compare_canvas_versions`: the differences mapping on
success, or the failure dictionary's message. -/
inductive CompareResult where
  | ok (differences : List (String × FieldDiff))
  | failure (message : String)
deriving DecidableEq, Repr

/-- Positional binding of a query placeholder `$n` against the argument
list passed to `fetchrow`: placeholder `$n` takes the n-th argument, and
binding fails when the statement references more placeholders than
arguments were supplied. -/
def bindArg (args : List Nat) (placeholder : Nat) : Option Nat :=
  args.get? (placeholder - 1)

/-- `ProjectCRUD.compare_canvas_versions` (lines 421-478).  The first
SELECT's text references `$1` and is called with the single argument
`edit_id1`; the second SELECT's text references `$2` but is also called
with a single argument (`edit_id2`), so its parameter binding fails, the
raised exception is caught, and the generic failure dictionary is
returned. -/
def compare_canvas_versions (db : DB) (edit_id1 edit_id2 : Nat) :
    CompareResult :=
  match bindArg [edit_id1] 1 with
  | none => .failure "バージョン比較に失敗しました"
  | some a1 =>
    match bindArg [edit_id2] 2 with
    | none => .failure "バージョン比較に失敗しました"
    | some a2 =>
      match db.details.find? (fun d => d.edit_id == a1),
            db.details.find? (fun d => d.edit_id == a2) with
      | some v1, some v2 => .ok (computeDifferences v1 v2)
      | _, _ => .failure "比較対象のバージョンが見つかりません"

/-- The declared table-level constraints of `edit_history` in
`src/db_operations.py` (class `EditHistory`, lines 82-95): `edit_id` is
the primary key (hence unique); `project_id` and `user_id` are foreign
keys into `projects` and `users`; every column except `update_comment` is
NOT NULL (enforced here by the row types).  No other constraint — in
particular no uniqueness over (`project_id`, `version`) — is declared. -/
def editHistorySchemaAdmits (projects : List ProjectRow) (users : List Nat)
    (rows : List EditRow) : Prop :=
  (rows.map (fun r => r.edit_id)).Nodup ∧
    ∀ r ∈ rows, (∃ p ∈ projects, p.project_id = r.project_id) ∧
      r.user_id ∈ users

instance (projects : List ProjectRow) (users : List Nat) (rows : List EditRow) :
    Decidable (editHistorySchemaAdmits projects users rows) := by
  unfold editHistorySchemaAdmits
  infer_instance

/-- The write half of `update_project`'s transaction body, split at the
isolation boundary: the two INSERTs as executed by a writer whose earlier
`SELECT COALESCE(MAX(version),0)` returned `m`.  Under the default
read-committed isolation, a concurrent transaction's uncommitted insert
is invisible to that read, so two interleaved calls can both run this
step with the same `m`. -/
def insertVersionRows (db : DB) (project_id user_id m : Nat)
    (canvas_data : List (String × String)) (update_category : UpdateCategory)
    (update_comment : Option String) (now : Nat) : DB :=
  { db with
     edit_history := db.edit_history ++
       [{ edit_id := db.nextEditId, project_id := project_id, version := m + 1,
          last_updated := now, user_id := user_id,
          update_category := update_category, update_comment := update_comment }]
     details := db.details ++ [detailsRowOf db.nextEditId canvas_data]
     nextEditId := db.nextEditId + 1 }

/-- N successive successful `update_project` calls on the same project by
the same member (category `manual`, no comment), as issued by a caller
repeating the REST update. -/
def runUpdates (pid uid : Nat) (c : List (String × String)) (now : Nat) :
    Nat → DB → DB
  | 0, db => db
  | n + 1, db =>
    (update_project (runUpdates pid uid c now n db) pid uid c .manual none
      now .noFault).2

/-- A one-project store: project 1 owned by user 1 with its version-1 row
(edit 1, empty payload) and user 1 as admin member. -/
def exDB : DB :=
  { projects := [⟨1, 1, "demo"⟩]
    edit_history := [⟨1, 1, 1, 1, 1, .manual, some "初期作成"⟩]
    details := [detailsRowOf 1 []]
    detailsJson := []
    members := [⟨1, 1, .admin⟩]
    nextEditId := 2
    nextProjectId := 2 }

/-- An empty store holding only project 1 and user 1's admin membership,
with no versions yet. -/
def emptyProjDB : DB :=
  { projects := [⟨1, 1, "demo"⟩]
    edit_history := []
    details := []
    detailsJson := []
    members := [⟨1, 1, .admin⟩]
    nextEditId := 1
    nextProjectId := 2 }

/-- First of two `edit_history` rows of the same project carrying the same
version number. -/
def dupRow1 : EditRow := ⟨1, 1, 2, 1, 1, .manual, none⟩

/-- Second row: distinct primary key, same (project, version) pair. -/
def dupRow2 : EditRow := ⟨2, 1, 2, 1, 1, .manual, none⟩

/-- A store where versions 1 (edit 1) and 2 (edit 2) of project 1 carry
the same `last_updated` timestamp, as two quick successive inserts can. -/
def tieDB : DB :=
  { projects := [⟨1, 1, "demo"⟩]
    edit_history := [⟨1, 1, 1, 5, 1, .manual, none⟩,
                     ⟨2, 1, 2, 5, 1, .manual, none⟩]
    details := []
    detailsJson := []
    members := [⟨1, 1, .admin⟩]
    nextEditId := 3
    nextProjectId := 2 }

/-- `db2` extends `db` by appending only: every pre-existing
`edit_history`, `details` and JSON-details row is still present,
unmodified and in place, at the front of the corresponding table. -/
def appendOnly (db db2 : DB) : Prop :=
  (∃ t, db2.edit_history = db.edit_history ++ t) ∧
  (∃ t, db2.details = db.details ++ t) ∧
  (∃ t, db2.detailsJson = db.detailsJson ++ t)

/-! ### Helper lemmas -/

lemma argmaxBy_cons (key : EditRow → Nat) (x : EditRow) (xs : List EditRow) :
    argmaxBy key (x :: xs) =
      match argmaxBy key xs with
      | none => some x
      | some b => if key x < key b then some b else some x := rfl

lemma argmaxBy_spec (key : EditRow → Nat) :
    ∀ l : List EditRow, l ≠ [] →
      ∃ r, argmaxBy key l = some r ∧ r ∈ l ∧
        key r = (l.map key).foldr max 0
  | [], h => absurd rfl h
  | x :: xs, _ => by
    cases xs with
    | nil => exact ⟨x, rfl, by simp, by simp⟩
    | cons y ys =>
      obtain ⟨r, hr, hmem, hkey⟩ := argmaxBy_spec key (y :: ys) (by simp)
      by_cases hlt : key x < key r
      · refine ⟨r, ?_, List.mem_cons_of_mem x hmem, ?_⟩
        · rw [argmaxBy_cons, hr]
          simp [hlt]
        · rw [List.map_cons, List.foldr_cons, ← hkey]
          exact (Nat.max_eq_right (Nat.le_of_lt hlt)).symm
      · refine ⟨x, ?_, List.mem_cons_self x _, ?_⟩
        · rw [argmaxBy_cons, hr]
          simp [hlt]
        · rw [List.map_cons, List.foldr_cons, ← hkey]
          exact (Nat.max_eq_left (Nat.not_lt.mp hlt)).symm

lemma foldr_max_le (b : Nat) :
    ∀ l : List Nat, (∀ x ∈ l, x ≤ b) → l.foldr max b = b
  | [], _ => rfl
  | x :: xs, h => by
    rw [List.foldr_cons, foldr_max_le b xs (fun y hy => h y (List.mem_cons_of_mem x hy))]
    exact Nat.max_eq_right (h x (List.mem_cons_self x xs))

lemma foldr_max_range' : ∀ n : Nat, (List.range' 1 n).foldr max 0 = n
  | 0 => rfl
  | n + 1 => by
    rw [List.range'_concat, List.foldr_append]
    simp only [List.foldr_cons, List.foldr_nil, Nat.one_mul]
    have h : ∀ x ∈ List.range' 1 n, x ≤ max (1 + n) 0 := by
      intro x hx
      have := (List.mem_range'_1.mp hx).2
      have h0 : 1 + n ≤ max (1 + n) 0 := Nat.le_max_left _ _
      omega
    rw [foldr_max_le _ _ h]
    have h0 : (0 : Nat) ≤ 1 + n := Nat.zero_le _
    rw [Nat.max_eq_left h0]
    omega

/-- `update_project` never touches the membership table, in any branch. -/
lemma update_project_members (db : DB) (pid uid : Nat)
    (c : List (String × String)) (cat : UpdateCategory) (cm : Option String)
    (now : Nat) (fault : TxFault) :
    ((update_project db pid uid c cat cm now fault).2).members = db.members := by
  unfold update_project
  split
  · rfl
  · cases fault <;> rfl

lemma hasAccess_update_project (db : DB) (pid uid pid2 uid2 : Nat)
    (c : List (String × String)) (cat : UpdateCategory) (cm : Option String)
    (now : Nat) (fault : TxFault) :
    hasAccess ((update_project db pid uid c cat cm now fault).2) pid2 uid2
      = hasAccess db pid2 uid2 := by
  unfold hasAccess
  rw [update_project_members]

/-- Successful `update_project` appends exactly the max+1 version to the
project's stored version list. -/
lemma versionsOf_update_project (db : DB) (pid uid : Nat)
    (c : List (String × String)) (cat : UpdateCategory) (cm : Option String)
    (now : Nat) (hacc : hasAccess db pid uid = true) :
    versionsOf ((update_project db pid uid c cat cm now .noFault).2) pid
      = versionsOf db pid ++ [maxVersion db pid + 1] := by
  simp [update_project, hacc, versionsOf, projectRows, List.filter_append]

/-- Under read-committed isolation, a successful `update_project` is the
read of the current max followed by the two INSERTs of
`insertVersionRows` executed with that value. -/
lemma update_project_eq_insertVersionRows (db : DB) (pid uid : Nat)
    (c : List (String × String)) (cat : UpdateCategory) (cm : Option String)
    (now : Nat) (hacc : hasAccess db pid uid = true) :
    (update_project db pid uid c cat cm now .noFault).2
      = insertVersionRows db pid uid (maxVersion db pid) c cat cm now := by
  simp [update_project, hacc, insertVersionRows]

/-- The field columns of a details row do not depend on its `edit_id`, so
the diff loop sees identical values on a row and its re-keyed copy. -/
lemma computeDifferences_copy (d : DetailsRow) (k : Nat) :
    (computeDifferences d { d with edit_id := k }).all
      (fun p => p.snd.changed == false) = true := by
  have hf : ∀ f, fieldVal { d with edit_id := k } f = fieldVal d f :=
    fun _ => rfl
  simp [computeDifferences, canvasFields, hf]

/-! ### C1 -/

/-- C1 counterexample: two concurrent `update_project` transactions on
`exDB` (stored versions {1}) that interleave as read-committed isolation
permits — both read `maxVersion = 1` before either insert commits, then
both run the write half of the transaction — leave the version multiset
[1, 2, 2]: a duplicate and a gap after three successful insertions,
refuting the concurrent half of the claim. -/
theorem concurrent_update_duplicates_version :
    versionsOf
      (insertVersionRows
        (insertVersionRows exDB 1 1 (maxVersion exDB 1) [] .manual none 2)
        1 1 (maxVersion exDB 1) [] .manual none 2) 1 = [1, 2, 2] ∧
    ¬ (versionsOf
      (insertVersionRows
        (insertVersionRows exDB 1 1 (maxVersion exDB 1) [] .manual none 2)
        1 1 (maxVersion exDB 1) [] .manual none 2) 1).Nodup := by
  decide

/-- C1 (amended): sequentially, the claim holds — starting from a project
with no versions, N successful `update_project` calls store exactly the
version list [1, …, N] (the set {1..N}, gap-free and duplicate-free), and
every successful insertion assigns version = current max + 1 (1 when none
exists).  The concurrent half of the claim fails: the code has no retry
and nothing forces one of two racing writers to fail, so interleaved
calls can insert duplicates (see the counterexample). -/
theorem sequential_versions_are_one_to_n (db : DB) (pid uid : Nat)
    (c : List (String × String)) (now n : Nat)
    (hacc : hasAccess db pid uid = true) (h0 : versionsOf db pid = []) :
    versionsOf (runUpdates pid uid c now n db) pid = List.range' 1 n ∧
    ∀ db2 : DB, hasAccess db2 pid uid = true →
      ((update_project db2 pid uid c .manual none now .noFault).1).version
        = some (maxVersion db2 pid + 1) := by
  constructor
  · have key : ∀ m : Nat,
        hasAccess (runUpdates pid uid c now m db) pid uid = true ∧
        versionsOf (runUpdates pid uid c now m db) pid = List.range' 1 m := by
      intro m
      induction m with
      | zero => exact ⟨hacc, by simpa using h0⟩
      | succ k ih =>
        obtain ⟨ha, hv⟩ := ih
        refine ⟨?_, ?_⟩
        · rw [runUpdates, hasAccess_update_project]
          exact ha
        · rw [runUpdates, versionsOf_update_project _ _ _ _ _ _ _ ha, hv,
            maxVersion, hv, foldr_max_range', List.range'_concat]
          simp [Nat.add_comm]
    exact (key n).2
  · intro db2 ha2
    simp [update_project, ha2]

/-- C1 witness: three sequential updates on the fresh project store the
versions [1, 2, 3]. -/
theorem sequential_versions_are_one_to_n_witness :
    versionsOf (runUpdates 1 1 [] 0 3 emptyProjDB) 1 = List.range' 1 3 :=
  (sequential_versions_are_one_to_n emptyProjDB 1 1 [] 0 3 (by decide)
    (by decide)).1

/-! ### C2 -/

/-- C2 counterexample: in the `update_canvas` endpoint the two inserts
commit in separate transactions, so a fault injected between them (the
details insert raising) leaves the already-committed `edit_history` row
for the attempted version 2 with no details row — not the zero rows the
claim requires. -/
theorem update_canvas_fault_leaves_orphan_row :
    (update_canvas exDB 1 1 .manual none [] 2 .detailsInsertFails).1
        = .httpError 500 ∧
    ∃ r ∈ (update_canvas exDB 1 1 .manual none [] 2
        .detailsInsertFails).2.edit_history,
      r.version = 2 ∧
        ∀ d ∈ (update_canvas exDB 1 1 .manual none [] 2
            .detailsInsertFails).2.detailsJson,
          d.edit_id ≠ r.edit_id := by
  decide

/-- C2 (amended): `ProjectCRUD.update_project` does create versions
atomically — a fault between its two inserts rolls the transaction back
and leaves the store exactly as it was (zero rows for the attempted
version), and a successful call appends exactly one `edit_history` row
together with its matching `details` row.  The `update_canvas` endpoint
in `main.py`, however, performs the two inserts in separate transactions,
so a fault between them leaves an EditRecord with no details row (see the
counterexample). -/
theorem update_project_version_write_atomic (db : DB) (pid uid : Nat)
    (c : List (String × String)) (cat : UpdateCategory) (cm : Option String)
    (now : Nat) (hacc : hasAccess db pid uid = true) :
    (update_project db pid uid c cat cm now .betweenInserts).2 = db ∧
    ∃ er dr,
      (update_project db pid uid c cat cm now .noFault).2.edit_history
        = db.edit_history ++ [er] ∧
      (update_project db pid uid c cat cm now .noFault).2.details
        = db.details ++ [dr] ∧
      dr.edit_id = er.edit_id := by
  refine ⟨by simp [update_project, hacc], ?_⟩
  refine ⟨{ edit_id := db.nextEditId, project_id := pid,
            version := maxVersion db pid + 1, last_updated := now,
            user_id := uid, update_category := cat, update_comment := cm },
          detailsRowOf db.nextEditId c, ?_, ?_, rfl⟩ <;>
    simp [update_project, hacc]

/-- C2 witness: on the concrete store, the injected fault leaves the
store untouched. -/
theorem update_project_version_write_atomic_witness :
    (update_project exDB 1 1 [] .manual none 2 .betweenInserts).2 = exDB :=
  (update_project_version_write_atomic exDB 1 1 [] .manual none 2
    (by decide)).1

/-! ### C3 -/

/-- C3 counterexample: the declared constraints of `edit_history` (primary
key `edit_id` only, foreign keys, NOT NULLs) admit two rows of the same
project with the same version, so the store schema does not make the pair
(project id, version) unique. -/
theorem schema_admits_duplicate_version :
    editHistorySchemaAdmits [⟨1, 1, "demo"⟩] [1] [dupRow1, dupRow2] ∧
    dupRow1.project_id = dupRow2.project_id ∧
    dupRow1.version = dupRow2.version ∧
    dupRow1.edit_id ≠ dupRow2.edit_id := by
  decide

/-- C3 (amended): the only uniqueness the `edit_history` schema enforces
is on the primary key `edit_id`; no constraint on (project id, version)
is declared, so duplicate version numbers are excluded only by
application logic, and nothing in the store forces one of two concurrent
same-version writers to fail or retry. -/
theorem edit_history_unique_key_is_edit_id (projects : List ProjectRow)
    (users : List Nat) (rows : List EditRow)
    (h : editHistorySchemaAdmits projects users rows) :
    (rows.map (fun r => r.edit_id)).Nodup :=
  h.1

/-- C3 witness: the schema accepts a concrete row list and its edit ids
are pairwise distinct. -/
theorem edit_history_unique_key_is_edit_id_witness :
    (([⟨3, 1, 5, 1, 1, .manual, none⟩] : List EditRow).map
      (fun r => r.edit_id)).Nodup :=
  edit_history_unique_key_is_edit_id [⟨1, 1, "demo"⟩] [1] _ (by decide)

/-! ### C4 -/

lemma appendOnly_refl (db : DB) : appendOnly db db :=
  ⟨⟨[], (List.append_nil _).symm⟩, ⟨[], (List.append_nil _).symm⟩,
   ⟨[], (List.append_nil _).symm⟩⟩

lemma appendOnly_trans {a b c : DB} (h1 : appendOnly a b)
    (h2 : appendOnly b c) : appendOnly a c := by
  obtain ⟨⟨t1, e1⟩, ⟨t2, e2⟩, ⟨t3, e3⟩⟩ := h1
  obtain ⟨⟨s1, f1⟩, ⟨s2, f2⟩, ⟨s3, f3⟩⟩ := h2
  exact ⟨⟨t1 ++ s1, by rw [f1, e1, List.append_assoc]⟩,
         ⟨t2 ++ s2, by rw [f2, e2, List.append_assoc]⟩,
         ⟨t3 ++ s3, by rw [f3, e3, List.append_assoc]⟩⟩

lemma insert_edit_history_appendOnly (db : DB) (pid v uid : Nat)
    (cat : UpdateCategory) (cm : Option String) (now : Nat) (fault : Bool) :
    appendOnly db (insert_edit_history db pid v uid cat cm now fault).2 := by
  unfold insert_edit_history
  split
  · exact appendOnly_refl db
  · exact ⟨⟨_, rfl⟩, ⟨[], (List.append_nil _).symm⟩,
      ⟨[], (List.append_nil _).symm⟩⟩

lemma insert_canvas_details_appendOnly (db : DB) (eid : Nat)
    (field : List (String × String)) (fault : Bool) :
    appendOnly db (insert_canvas_details db eid field fault).2 := by
  unfold insert_canvas_details
  split
  · exact appendOnly_refl db
  · exact ⟨⟨[], (List.append_nil _).symm⟩, ⟨[], (List.append_nil _).symm⟩,
      ⟨_, rfl⟩⟩

lemma update_canvas_appendOnly (db : DB) (pid uid : Nat)
    (cat : UpdateCategory) (cm : Option String)
    (field : List (String × String)) (now : Nat) (g : CanvasFault) :
    appendOnly db (update_canvas db pid uid cat cm field now g).2 := by
  simp only [update_canvas]
  split
  · exact insert_edit_history_appendOnly _ _ _ _ _ _ _ _
  · split
    · exact appendOnly_trans (insert_edit_history_appendOnly _ _ _ _ _ _ _ _)
        (insert_canvas_details_appendOnly _ _ _ _)
    · exact appendOnly_trans (insert_edit_history_appendOnly _ _ _ _ _ _ _ _)
        (insert_canvas_details_appendOnly _ _ _ _)

/-- C4: history is immutable — every write operation (manual or
AI-provenance update through `update_project`, rollback, project
creation, and the `update_canvas` endpoint), in every branch (success,
authorization denial, missing target, injected fault), only appends rows:
all previously stored `edit_history` and details rows survive unchanged
and in place. -/
theorem history_is_append_only (db : DB) (pid eid uid : Nat)
    (c field : List (String × String)) (cat : UpdateCategory)
    (cm : Option String) (pname : String) (now : Nat) (f : TxFault)
    (g : CanvasFault) :
    appendOnly db (update_project db pid uid c cat cm now f).2 ∧
    appendOnly db (rollback_to_version db pid eid uid cm now f).2 ∧
    appendOnly db (create_project db uid pname c cm now f).2 ∧
    appendOnly db (update_canvas db pid uid cat cm field now g).2 := by
  refine ⟨?_, ?_, ?_, update_canvas_appendOnly db pid uid cat cm field now g⟩
  · unfold update_project
    split
    · exact appendOnly_refl db
    · cases f
      · exact ⟨⟨_, rfl⟩, ⟨_, rfl⟩, ⟨[], (List.append_nil _).symm⟩⟩
      · exact appendOnly_refl db
  · unfold rollback_to_version
    split
    · exact appendOnly_refl db
    · split
      · exact appendOnly_refl db
      · cases f
        · exact ⟨⟨_, rfl⟩, ⟨_, rfl⟩, ⟨[], (List.append_nil _).symm⟩⟩
        · exact appendOnly_refl db
  · unfold create_project
    cases f
    · exact ⟨⟨_, rfl⟩, ⟨_, rfl⟩, ⟨[], (List.append_nil _).symm⟩⟩
    · exact appendOnly_refl db

/-! ### C5 -/

/-- C5: a requester with no `project_members` row for the project is
rejected by both `update_project` (createVersion) and
`rollback_to_version` with the access-denied failure, in every fault
scenario, and the store — in particular `edit_history` — is left exactly
as it was. -/
theorem no_membership_rejected (db : DB) (pid eid uid : Nat)
    (c : List (String × String)) (cat : UpdateCategory) (cm : Option String)
    (now : Nat) (f : TxFault)
    (hacc : hasAccess db pid uid = false) :
    (update_project db pid uid c cat cm now f).1.success = false ∧
    (update_project db pid uid c cat cm now f).1.message
      = "このプロジェクトへのアクセス権限がありません" ∧
    (update_project db pid uid c cat cm now f).2 = db ∧
    (rollback_to_version db pid eid uid cm now f).1.success = false ∧
    (rollback_to_version db pid eid uid cm now f).1.message
      = "このプロジェクトへのアクセス権限がありません" ∧
    (rollback_to_version db pid eid uid cm now f).2 = db := by
  simp [update_project, rollback_to_version, hacc]

/-- C5 witness: user 2 holds no membership on project 1 of the concrete
store (which does exist), and the update is rejected. -/
theorem no_membership_rejected_witness :
    (update_project exDB 1 2 [] .manual none 5 .noFault).1.success = false :=
  (no_membership_rejected exDB 1 1 2 [] .manual none 5 .noFault
    (by decide)).1

/-! ### C6 -/

/-- C6 counterexample: rolling project 1 of the concrete store back to
edit 1 succeeds and creates version 2 (edit 2), but comparing the target
edit against the new version with the diff operation does not report the
all-unchanged field map required by the claim — `compare_canvas_versions`
returns its generic failure (its second query's parameter never binds). -/
theorem rollback_then_compare_fails :
    (rollback_to_version exDB 1 1 1 none 9 .noFault).1.version = some 2 ∧
    compare_canvas_versions (rollback_to_version exDB 1 1 1 none 9 .noFault).2
        1 2 = .failure "バージョン比較に失敗しました" := by
  constructor
  · decide
  · rfl

/-- C6 (amended): a successful rollback creates version
current-max + 1 with provenance tag `rollback`, and its stored `details`
row is a verbatim copy of the target version's eleven field values, so a
field-by-field comparison with the diff loop's own semantics (NULL read
as empty string, `changed` = exact string inequality) reports every
recognized field unchanged.  The `compare_canvas_versions` entry point
itself cannot report this, as it fails on every input (see C7). -/
theorem rollback_appends_exact_copy (db : DB) (pid eid uid now : Nat)
    (target : DetailsRow) (tv : Nat)
    (hacc : hasAccess db pid uid = true)
    (htarget : fetchTargetDetails db eid pid = some (target, tv)) :
    (rollback_to_version db pid eid uid none now .noFault).1.success
        = true ∧
    (rollback_to_version db pid eid uid none now .noFault).1.version
        = some (maxVersion db pid + 1) ∧
    (rollback_to_version db pid eid uid none now .noFault).2.edit_history
        = db.edit_history ++
          [{ edit_id := db.nextEditId, project_id := pid,
             version := maxVersion db pid + 1, last_updated := now,
             user_id := uid, update_category := .rollback,
             update_comment :=
               some ("バージョン" ++ toString tv ++ "にロールバック") }] ∧
    (rollback_to_version db pid eid uid none now .noFault).2.details
        = db.details ++ [{ target with edit_id := db.nextEditId }] ∧
    (computeDifferences target { target with edit_id := db.nextEditId }).all
        (fun p => p.snd.changed == false) = true := by
  refine ⟨?_, ?_, ?_, ?_, computeDifferences_copy target db.nextEditId⟩ <;>
    simp [rollback_to_version, hacc, htarget]

/-- C6 witness: the rollback on the concrete store succeeds. -/
theorem rollback_appends_exact_copy_witness :
    (rollback_to_version exDB 1 1 1 none 9 .noFault).1.success = true :=
  (rollback_appends_exact_copy exDB 1 1 1 9 (detailsRowOf 1 []) 1
    (by decide) (by decide)).1

/-! ### C7 -/

/-- C7: `compare_canvas_versions` can never report a field map at all —
for every store and every pair of edit ids, including `compare(X, X)`,
its second SELECT references placeholder `$2` while only one argument is
supplied, the binding fails, and the caught exception is returned as the
generic comparison-failure dictionary.  The claimed self-equality and
symmetry therefore never hold as stated. -/
theorem compare_canvas_versions_always_fails (db : DB) (e1 e2 : Nat) :
    compare_canvas_versions db e1 e2
      = .failure "バージョン比較に失敗しました" := rfl

/-! ### C8 -/

/-- C8 counterexample: `get_latest_version` and `get_latest_edit_id`
order by the `last_updated` timestamp, not by version.  In a store where
versions 1 (edit 1) and 2 (edit 2) of project 1 carry the same timestamp
— as two quick successive inserts can — they return version 1 / edit 1
although the maximum stored version is 2. -/
theorem latest_lookups_not_max_version :
    maxVersion tieDB 1 = 2 ∧
    get_latest_version tieDB 1 = some 1 ∧
    get_latest_edit_id tieDB 1 = some 1 := by
  decide

/-- C8 (amended): `ProjectCRUD.get_project_latest` does return the
project's maximum-version EditRecord joined with that record's details
row — whatever row its version-ordered query returns carries version =
max.  The helper lookups `get_latest_version` / `get_latest_edit_id`
cited by the claim, however, sort by the `last_updated` timestamp and
agree with the maximum version only while timestamp order matches version
order (the counterexample shows a timestamp tie breaking them). -/
theorem get_project_latest_returns_max_version (db : DB) (pid uid : Nat)
    (r : EditRow) (p : ProjectRow)
    (hacc : hasAccess db pid uid = true)
    (hp : db.projects.find? (fun q => q.project_id == pid) = some p)
    (hr : argmaxBy (fun e => e.version) (projectRows db pid) = some r) :
    r.version = maxVersion db pid ∧
    get_project_latest db pid uid =
      some { project_id := pid, current_version := r.version,
             update_category := r.update_category,
             update_comment := r.update_comment,
             canvas := db.details.find? (fun d => d.edit_id == r.edit_id) } := by
  constructor
  · have hne : projectRows db pid ≠ [] := by
      intro h
      rw [h] at hr
      exact Option.noConfusion hr
    obtain ⟨r2, hr2, _, hkey⟩ := argmaxBy_spec (fun e => e.version) _ hne
    rw [hr] at hr2
    injection hr2 with h2
    subst h2
    simpa [maxVersion, versionsOf] using hkey
  · simp [get_project_latest, hacc, hp, hr]

/-- C8 witness: on the concrete store the latest lookup returns the
version-1 record (the only and therefore maximal version) with its
payload. -/
theorem get_project_latest_returns_max_version_witness :
    get_project_latest exDB 1 1
      = some { project_id := 1, current_version := 1,
               update_category := .manual,
               update_comment := some "初期作成",
               canvas := some (detailsRowOf 1 []) } :=
  (get_project_latest_returns_max_version exDB 1 1
    ⟨1, 1, 1, 1, 1, .manual, some "初期作成"⟩ ⟨1, 1, "demo"⟩
    (by decide) (by decide) (by decide)).2

/-! ### C9 -/

/-- C9 counterexample: a storage exception injected inside
`update_project`'s transaction is caught and suppressed into the generic
untyped success-false dictionary — refuting the claim that the core never
does so. -/
theorem storage_fault_suppressed_to_success_false :
    (update_project exDB 1 1 [] .manual none 5 .betweenInserts).1
      = { success := false, edit_id := none, version := none,
          message := "プロジェクト更新に失敗しました" } := by
  decide

/-- C9 (amended): every failure of `update_project` — an authorization
denial as much as a caught storage exception — is reported through the
same untyped `{success := false, message}` dictionary with no error type
and no ids; the two failure classes differ only in the message string, so
callers cannot distinguish failures except by matching on that text. -/
theorem failures_reported_as_success_false (db dbd : DB) (pid uid uidd : Nat)
    (c : List (String × String)) (cat : UpdateCategory) (cm : Option String)
    (now : Nat)
    (hacc : hasAccess db pid uid = true)
    (hden : hasAccess dbd pid uidd = false) :
    (update_project db pid uid c cat cm now .betweenInserts).1
      = { success := false, edit_id := none, version := none,
          message := "プロジェクト更新に失敗しました" } ∧
    (update_project dbd pid uidd c cat cm now .noFault).1
      = { success := false, edit_id := none, version := none,
          message := "このプロジェクトへのアクセス権限がありません" } := by
  constructor <;> simp [update_project, hacc, hden]

/-- C9 witness: both failure shapes occur on the concrete store (user 1
is a member, user 2 is not). -/
theorem failures_reported_as_success_false_witness :
    (update_project exDB 1 1 [] .manual none 5 .betweenInserts).1
      = { success := false, edit_id := none, version := none,
          message := "プロジェクト更新に失敗しました" } :=
  (failures_reported_as_success_false exDB exDB 1 1 2 [] .manual none 5
    (by decide) (by decide)).1

/-! ### C10 -/

/-- C10: exactly the eleven recognized field names are persisted — the
stored `details` row reads, for each recognized field, precisely
`canvas_data.get(field)` (so a recognized field absent from the mapping
is stored as NULL), the row depends only on the mapping's values at the
eleven recognized names (any other key is silently discarded), and
neither `update_project` nor `create_project` can fail because of
unrecognized input: with access granted and no fault they succeed for
every mapping. -/
theorem eleven_recognized_fields (e : Nat)
    (c c1 c2 : List (String × String)) (db : DB) (pid uid now : Nat)
    (cat : UpdateCategory) (cm : Option String) (pname : String)
    (hagree : ∀ f ∈ canvasFields, cget c1 f = cget c2 f)
    (hacc : hasAccess db pid uid = true) :
    (∀ f ∈ canvasFields, fieldVal (detailsRowOf e c) f = cget c f) ∧
    detailsRowOf e c1 = detailsRowOf e c2 ∧
    (update_project db pid uid c cat cm now .noFault).1.success = true ∧
    (create_project db uid pname c cm now .noFault).1.success = true := by
  refine ⟨?_, ?_, by simp [update_project, hacc], by simp [create_project]⟩
  · intro f hf
    fin_cases hf <;> rfl
  · have h1 := hagree "problem" (by simp [canvasFields])
    have h2 := hagree "customer_segments" (by simp [canvasFields])
    have h3 := hagree "unique_value_proposition" (by simp [canvasFields])
    have h4 := hagree "solution" (by simp [canvasFields])
    have h5 := hagree "channels" (by simp [canvasFields])
    have h6 := hagree "revenue_streams" (by simp [canvasFields])
    have h7 := hagree "cost_structure" (by simp [canvasFields])
    have h8 := hagree "key_metrics" (by simp [canvasFields])
    have h9 := hagree "unfair_advantage" (by simp [canvasFields])
    have h10 := hagree "early_adopters" (by simp [canvasFields])
    have h11 := hagree "existing_alternatives" (by simp [canvasFields])
    simp only [detailsRowOf, h1, h2, h3, h4, h5, h6, h7, h8, h9, h10, h11]

/-- C10 witness: a mapping carrying an unrecognized key is stored exactly
like the same mapping without it. -/
theorem eleven_recognized_fields_witness :
    detailsRowOf 0 [("problem", "X"), ("junk", "Z")]
      = detailsRowOf 0 [("problem", "X")] :=
  (eleven_recognized_fields 0 [("problem", "X")]
    [("problem", "X"), ("junk", "Z")] [("problem", "X")] exDB 1 1 5 .manual
    none "demo" (by decide) (by decide)).2.1

end Tantan
